import Mathlib

/-!
Verification development for the `httpbench` repository.

The core of the repository is a hand-rolled HTTP/1.1 client
(`prepare_socket` plus the `socket-read` / `socket-readinto` body-retrieval
strategies), a checksum validator (`validate`) and a statistical measurement
harness (`measure_method`), all in `httpbench.py` (the same raw client is
duplicated verbatim in `requests_naive.py`).

The shallow embedding below models:
  * a byte as a `Nat` (Latin-1 decoding is the identity on byte values, so a
    decoded text line is modelled by the same list of numbers);
  * the response byte stream delivered by the socket after the request has
    been written as a `List Nat`; the buffered handle returned by
    `prepare_socket` is the part of the stream that has not been consumed;
  * Python floats by exact rationals (`Rat`) and `math.sqrt` by `Real.sqrt`;
  * Python exceptions by an explicit error type `PyErr`, and the
    possibly-nonterminating header loop by a fuel parameter where `none`
    means that the given amount of fuel was not enough (divergence is the
    statement that every amount of fuel returns `none`).
-/

namespace HttpBench

deriving instance DecidableEq for Except

/-- Byte values of an ASCII string: `Char.toNat` of each character.  All the
string constants of the source are ASCII, where Unicode code points and
Latin-1 byte values coincide. -/
def strBytes (s : String) : List Nat :=
  s.toList.map Char.toNat

/-- Python exceptions that the modelled code can raise. -/
inductive PyErr where
  | runtimeError (msg : String)
  | valueError
  | assertionError
  | statisticsError
  | zeroDivisionError
deriving DecidableEq, Repr

/-- Model of `fh.readline()` on a buffered byte stream: the returned line is
everything up to and including the first `\n` (byte 10), or the whole rest of
the stream if it holds no newline; at end of stream it returns the empty
byte string.  The second component is the unconsumed rest of the stream. -/
def pyReadline : List Nat → List Nat × List Nat
  | [] => ([], [])
  | b :: rest =>
    if b = 10 then ([10], rest)
    else
      let p := pyReadline rest
      (b :: p.1, p.2)

/-- Characters stripped by Python `str.rstrip()` with no argument, restricted
to the Latin-1 range: space, `\t`, `\n`, `\v`, `\f`, `\r`, the C1 separators
U+001C..U+001F, NEL (U+0085) and NBSP (U+00A0). -/
def isPyWhitespace (b : Nat) : Bool :=
  b == 32 || (decide (9 ≤ b) && decide (b ≤ 13)) ||
    (decide (28 ≤ b) && decide (b ≤ 31)) || b == 133 || b == 160

/-- Model of `str.rstrip()`: drop trailing whitespace characters. -/
def pyRstrip (s : List Nat) : List Nat :=
  (s.reverse.dropWhile isPyWhitespace).reverse

/-- Model of `str.strip()` (used by `int()`): drop leading and trailing
whitespace characters. -/
def pyStrip (s : List Nat) : List Nat :=
  pyRstrip (s.dropWhile isPyWhitespace)

/-- Model of `str.lower()` on one Latin-1 code point: ASCII `A`..`Z` and the
Latin-1 uppercase letters U+00C0..U+00DE (except the multiplication sign
U+00D7) map 0x20 upward; everything else is fixed. -/
def pyLowerByte (b : Nat) : Nat :=
  if 65 ≤ b ∧ b ≤ 90 then b + 32
  else if 192 ≤ b ∧ b ≤ 222 ∧ b ≠ 215 then b + 32
  else b

/-- Model of `str.lower()` on a decoded line. -/
def pyLower (s : List Nat) : List Nat :=
  s.map pyLowerByte

/-- Model of `str.split(' ')`: split at every single space, keeping empty
pieces. -/
def pySplitSpace : List Nat → List (List Nat)
  | [] => [[]]
  | 32 :: rest => [] :: pySplitSpace rest
  | b :: rest =>
    match pySplitSpace rest with
    | [] => [[b]]
    | g :: gs => (b :: g) :: gs

/-- Digit-run parser used by the model of `int()`: consumes decimal digits,
allowing a single underscore between two digits (Python's base-10 integer
literal grammar). -/
def digitsGo : List Nat → Nat → Option Nat
  | [], acc => some acc
  | b :: rest, acc =>
    if 48 ≤ b ∧ b ≤ 57 then digitsGo rest (acc * 10 + (b - 48))
    else if b = 95 then
      match rest with
      | [] => none
      | c :: rest' =>
        if 48 ≤ c ∧ c ≤ 57 then digitsGo rest' (acc * 10 + (c - 48)) else none
    else none

/-- Nonempty digit run: the first character must be a decimal digit. -/
def digitsCore : List Nat → Option Nat
  | [] => none
  | b :: rest => if 48 ≤ b ∧ b ≤ 57 then digitsGo rest (b - 48) else none

/-- Model of Python `int(text)` in base 10: surrounding whitespace is
ignored, then an optional sign followed by a nonempty digit run; `none`
models a raised `ValueError`. -/
def pyInt (s : List Nat) : Option Int :=
  match pyStrip s with
  | [] => none
  | 43 :: rest => (digitsCore rest).map (fun n => (n : Int))
  | 45 :: rest => (digitsCore rest).map (fun n => -(n : Int))
  | t => (digitsCore t).map (fun n => (n : Int))

/-- Byte values of the pattern `content-length: ` that
`prepare_socket` matches against the start of each lowered header line
(note the single mandatory space after the colon). -/
def clPat : List Nat :=
  strBytes ("content-length: ")

/-- The processed text of a received line: `line.decode('latin-1').rstrip().lower()`. -/
def lineText (line : List Nat) : List Nat :=
  pyLower (pyRstrip line)

/-- The token `text.split(' ')[1]` taken from a processed header line. -/
def part1 (text : List Nat) : List Nat :=
  (pySplitSpace text).getD 1 []

/-- Whether a received line is recognised as a Content-Length header:
`text.startswith('content-length: ')` on the processed text. -/
def clMatch (line : List Nat) : Bool :=
  clPat.isPrefixOf (lineText line)

/-- The value `int(text.split(' ')[1])` that a recognised line stores. -/
def clValue (line : List Nat) : Option Int :=
  pyInt (part1 (lineText line))

/-- Whether processing a received line raises (`int()` fails on a line that
matched the Content-Length pattern). -/
def lineRaises (line : List Nat) : Bool :=
  clMatch line && (clValue line).isNone

/-- One iteration of the header loop body on a non-terminator line: either
the stored Content-Length is replaced by the parsed value of this line, or
the line is ignored, or `int()` raises a `ValueError`. -/
def headerLineUpdate (line : List Nat) (cl : Option Int) : Except PyErr (Option Int) :=
  let text := lineText line
  if clPat.isPrefixOf text then
    match pyInt (part1 text) with
    | some v => Except.ok (some v)
    | none => Except.error PyErr.valueError
  else Except.ok cl

/-- The `while True` header loop of `prepare_socket`, with fuel.  A result
`none` means the loop was still running when the fuel ran out; `some` is a
genuine outcome of the Python loop: the remaining stream (the handle
positioned at the first body byte) with the stored content length, or a
raised exception. -/
def parseLoop : Nat → List Nat → Option Int → Option (Except PyErr (List Nat × Int))
  | 0, _, _ => none
  | fuel + 1, s, cl =>
    let p := pyReadline s
    if p.1 = [13, 10] then
      match cl with
      | none => some (Except.error (PyErr.runtimeError ("Did not receive Content-Length header")))
      | some n => some (Except.ok (p.2, n))
    else
      match headerLineUpdate p.1 cl with
      | Except.ok cl' => parseLoop fuel p.2 cl'
      | Except.error e => some (Except.error e)

/-- Model of `prepare_socket`, abstracted over the response byte stream the
server sends back: connecting and writing the request do not influence the
returned value, so the function is the header loop started with no stored
Content-Length. -/
def prepare_socket (fuel : Nat) (resp : List Nat) : Option (Except PyErr (List Nat × Int)) :=
  parseLoop fuel resp none

/-- Model of `load_socket_read` (the `socket-read` strategy):
`fh.read(content_length)` returns at most `content_length` bytes (all
remaining bytes when the argument is negative, as for Python `read`). -/
def load_socket_read (fuel : Nat) (resp : List Nat) : Option (Except PyErr (List Nat)) :=
  match prepare_socket fuel resp with
  | none => none
  | some (Except.error e) => some (Except.error e)
  | some (Except.ok (fh, cl)) =>
    if cl < 0 then some (Except.ok fh)
    else some (Except.ok (fh.take cl.toNat))

/-- Model of `load_socket_readinto` (the `socket-readinto` strategy):
allocate `bytearray(content_length)` (a `ValueError` when the length is
negative), fill it in place with `fh.readinto(raw)` which reads until the
buffer is full or the stream ends, `assert n == content_length`, and return
`memoryview(raw)[:n]`. -/
def load_socket_readinto (fuel : Nat) (resp : List Nat) : Option (Except PyErr (List Nat)) :=
  match prepare_socket fuel resp with
  | none => none
  | some (Except.error e) => some (Except.error e)
  | some (Except.ok (fh, cl)) =>
    if cl < 0 then some (Except.error PyErr.valueError)
    else
      let len := cl.toNat
      let n := min len fh.length
      let raw := fh.take n ++ List.replicate (len - n) 0
      if n = len then some (Except.ok (raw.take n))
      else some (Except.error PyErr.assertionError)

/-- Concatenation of newline-terminated lines: `joinLines [l1, l2]` is the
stream `l1 ++ [10] ++ l2 ++ [10]`.  Used to quantify over well-formed header
blocks, the `li` being the line contents before the `\n` byte. -/
def joinLines : List (List Nat) → List Nat
  | [] => []
  | l :: ls => l ++ 10 :: joinLines ls

/-- A header line (given by its content before the `\n` byte) that the loop
steps over without effect: it is not the terminator `\r\n` and its processed
text does not match the Content-Length pattern. -/
def goodSkipLine (l : List Nat) : Prop :=
  10 ∉ l ∧ l ≠ [13] ∧ clMatch (l ++ [10]) = false

/-- A header line (content before the `\n` byte) that does not end the loop:
not the terminator and not raising while parsed.  It may or may not be a
recognised Content-Length line. -/
def quietLine (l : List Nat) : Prop :=
  10 ∉ l ∧ l ≠ [13] ∧ lineRaises (l ++ [10]) = false

/-- A header line (content before the `\n` byte) recognised as a
Content-Length header with the stored value `v`. -/
def matchLineVal (l : List Nat) (v : Int) : Prop :=
  10 ∉ l ∧ clMatch (l ++ [10]) = true ∧ clValue (l ++ [10]) = some v

/-- Diagnostics printed by `validate`; the function only prints, it never
raises and never changes any measured value. -/
inductive Diag where
  | noChecksumFound
  | checksumMismatch (actual expected : List Char)
deriving DecidableEq, Repr

/-- The compiled-in checksum table of `httpbench.py`, keyed by exact payload
byte count; the digests are modelled as lists of characters of the
hex-encoded SHA-256 strings. -/
def CHECKSUMS : List (Nat × List Char) :=
  [(10 ^ 6 + 128, ("fa82243e0db587af04504f5d3229ff7227f574f8f938edaad8be8e168bc2bc87").toList),
   (10 ^ 7 + 128, ("128ceaac08362426bb7271ed6202d11c6830587a415bd7868359725c22d2fe88").toList),
   (10 ^ 9 + 128, ("d699e2c306b897609be6222315366b25137778e18f8634c75b006cef50647978").toList)]

/-- Dictionary lookup `CHECKSUMS[size]`; `none` models the `KeyError`
branch. -/
def checksumLookup (n : Nat) : Option (List Char) :=
  (CHECKSUMS.find? (fun e => e.1 == n)).map (fun e => e.2)

/-- Model of `str.lower()` on a digest string. -/
def pyStrLower (s : List Char) : List Char :=
  s.map Char.toLower

/-- Model of `validate(data)`.  `hashlib.sha256(...).hexdigest()` is an
external collaborator, modelled by the abstract digest function `digestHex`
(its documented behaviour, producing lowercase hex, enters the theorems as a
hypothesis).  The returned list collects the diagnostics printed; `validate`
has no other effect and no error outcome. -/
def validate (digestHex : List Nat → List Char) (data : List Nat) : List Diag :=
  match checksumLookup data.length with
  | none => [Diag.noChecksumFound]
  | some checksum =>
    let actual := digestHex data
    if actual ≠ checksum then [Diag.checksumMismatch actual checksum] else []

/-- Environment a measurement runs in: `payload k` is the byte payload the
selected method returns on its `k`-th invocation (invocation `0` is the
warmup call), and `clock t` is the value of the `t`-th call of
`time.monotonic()` inside the timed loop (pass `i` reads the clock at
`2*i` and `2*i+1`), as an exact rational. -/
structure MeasureEnv where
  payload : Nat → List Nat
  clock : Nat → Rat

/-- The timed loop of `measure_method` over the remaining pass indices.
Per pass: read the clock, invoke the method, read the clock again, append
`len(data) / elapsed` to `rates` (a `ZeroDivisionError` when the elapsed
time is zero), and on pass `0` record `len(data)` as the reported size.
`gc.collect()`, `validate(data)` and `del data` have no effect on the
returned value.  The first component counts method invocations made so
far. -/
def measureGo (env : MeasureEnv) : List Nat → List Rat → Nat → Nat → Nat × Except PyErr (List Rat × Nat)
  | [], rates, size, calls => (calls, Except.ok (rates, size))
  | i :: is, rates, size, calls =>
    let data := env.payload (i + 1)
    let elapsed := env.clock (2 * i + 1) - env.clock (2 * i)
    if elapsed = 0 then (calls + 1, Except.error PyErr.zeroDivisionError)
    else
      measureGo env is (rates ++ [(data.length : Rat) / elapsed])
        (if i = 0 then data.length else size) (calls + 1)

/-- Model of `statistics.mean`: the exact arithmetic mean, raising
`StatisticsError` on an empty list. -/
def pyMean (xs : List Rat) : Except PyErr Rat :=
  if xs.length = 0 then Except.error PyErr.statisticsError
  else Except.ok (xs.sum / (xs.length : Rat))

/-- Model of the square of `statistics.stdev`: the exact sample variance
with Bessel divisor `n - 1`, raising `StatisticsError` on fewer than two
data points.  `statistics.stdev xs = Real.sqrt` of this value. -/
def pyVariance (xs : List Rat) : Except PyErr Rat :=
  if xs.length < 2 then Except.error PyErr.statisticsError
  else
    Except.ok ((xs.map (fun x => (x - xs.sum / (xs.length : Rat)) ^ 2)).sum /
      ((xs.length : Rat) - 1))

/-- Model of `measure_method`: one warmup invocation (whose result is
discarded), then `range(passes)` timed passes, then
`mean = statistics.mean(rates)` and the sample variance underlying
`statistics.stdev(rates)`.  The result is the pair of the total number of
method invocations performed and either the raised exception or
`(mean, variance of rates, size)`; the real-valued standard error printed by
the program is `measure_stderr passes variance`. -/
def measure_method (env : MeasureEnv) (passes : Int) : Nat × Except PyErr (Rat × Rat × Nat) :=
  let r := measureGo env (List.range passes.toNat) [] 0 1
  (r.1,
    match r.2 with
    | Except.error e => Except.error e
    | Except.ok (rates, size) =>
      match pyMean rates with
      | Except.error e => Except.error e
      | Except.ok m =>
        match pyVariance rates with
        | Except.error e => Except.error e
        | Except.ok v => Except.ok (m, v, size))

/-- The real number `statistics.stdev(rates) / math.sqrt(passes - 1)`
computed on line 233 of `httpbench.py`, expressed from the exact sample
variance of the rates. -/
noncomputable def measure_stderr (passes : Int) (variance : Rat) : Real :=
  Real.sqrt (variance : Real) / Real.sqrt ((passes : Real) - 1)

/-- The standard error that a successful `measure_method` run reports. -/
noncomputable def measure_method_std (env : MeasureEnv) (passes : Int) : Real :=
  match (measure_method env passes).2 with
  | Except.ok (_, v, _) => measure_stderr passes v
  | Except.error _ => 0

/-- Operations the raw client performs on its socket and on the buffered
handle wrapping it.  The source never performs `close`; the constructor is
present so that absence of release can be stated. -/
inductive SockOp where
  | socketNew
  | connect
  | makefile
  | write
  | flush
  | readline
  | read
  | readinto
  | close
deriving DecidableEq, Repr

/-- The header loop again, instrumented with the socket operations it
performs; the result component behaves exactly as `parseLoop`
(see `parseLoopOps_result`). -/
def parseLoopOps : Nat → List Nat → Option Int → List SockOp × Option (Except PyErr (List Nat × Int))
  | 0, _, _ => ([], none)
  | fuel + 1, s, cl =>
    let p := pyReadline s
    if p.1 = [13, 10] then
      ([SockOp.readline],
        match cl with
        | none => some (Except.error (PyErr.runtimeError ("Did not receive Content-Length header")))
        | some n => some (Except.ok (p.2, n)))
    else
      match headerLineUpdate p.1 cl with
      | Except.ok cl' =>
        let q := parseLoopOps fuel p.2 cl'
        (SockOp.readline :: q.1, q.2)
      | Except.error e => ([SockOp.readline], some (Except.error e))

/-- Socket-operation trace of `prepare_socket`: create the socket, connect,
wrap it with `makefile`, write and flush the request, then run the header
loop.  On no path, the parse-failure path included, is a `close`
performed. -/
def prepare_socket_ops (fuel : Nat) (resp : List Nat) : List SockOp × Option (Except PyErr (List Nat × Int)) :=
  let q := parseLoopOps fuel resp none
  ([SockOp.socketNew, SockOp.connect, SockOp.makefile, SockOp.write, SockOp.flush] ++ q.1, q.2)

/-- Socket-operation trace of `load_socket_read`: the trace of
`prepare_socket` followed, on success, by the single body `read`; the
function returns without closing the handle. -/
def load_socket_read_ops (fuel : Nat) (resp : List Nat) : List SockOp × Option (Except PyErr (List Nat)) :=
  let pre := prepare_socket_ops fuel resp
  match pre.2 with
  | none => (pre.1, none)
  | some (Except.error e) => (pre.1, some (Except.error e))
  | some (Except.ok (fh, cl)) =>
    (pre.1 ++ [SockOp.read],
      if cl < 0 then some (Except.ok fh) else some (Except.ok (fh.take cl.toNat)))

/-- Socket-operation trace of `load_socket_readinto`: the trace of
`prepare_socket` followed, when the buffer allocation succeeds, by the
single body `readinto`; the function returns without closing the handle. -/
def load_socket_readinto_ops (fuel : Nat) (resp : List Nat) : List SockOp × Option (Except PyErr (List Nat)) :=
  let pre := prepare_socket_ops fuel resp
  match pre.2 with
  | none => (pre.1, none)
  | some (Except.error e) => (pre.1, some (Except.error e))
  | some (Except.ok (fh, cl)) =>
    if cl < 0 then (pre.1, some (Except.error PyErr.valueError))
    else
      let len := cl.toNat
      let n := min len fh.length
      let raw := fh.take n ++ List.replicate (len - n) 0
      (pre.1 ++ [SockOp.readinto],
        if n = len then some (Except.ok (raw.take n))
        else some (Except.error PyErr.assertionError))

/-- Concrete measurement environment for witnesses: every invocation returns
the three-byte payload `[1, 2, 3]` and the `t`-th clock reading is `t`
seconds, so every pass takes one second. -/
def env0 : MeasureEnv where
  payload := fun _ => [1, 2, 3]
  clock := fun t => (t : Rat)

/-- The per-pass throughputs the specification describes: for pass `i`,
the payload byte count divided by the elapsed monotonic time of that
pass. -/
def specRates (env : MeasureEnv) (p : Nat) : List Rat :=
  (List.range p).map (fun i =>
    ((env.payload (i + 1)).length : Rat) / (env.clock (2 * i + 1) - env.clock (2 * i)))

/-- The arithmetic mean of the per-pass throughputs, as the specification
states it. -/
def specMean (env : MeasureEnv) (p : Nat) : Rat :=
  (specRates env p).sum / (p : Rat)

/-- The exact sample variance (Bessel divisor `p - 1`) of the per-pass
throughputs; the sample standard deviation of the specification is its
real square root. -/
def specVariance (env : MeasureEnv) (p : Nat) : Rat :=
  ((specRates env p).map (fun r => (r - specMean env p) ^ 2)).sum / ((p : Rat) - 1)

instance (l : List Nat) : Decidable (goodSkipLine l) := by
  unfold goodSkipLine; infer_instance

instance (l : List Nat) : Decidable (quietLine l) := by
  unfold quietLine; infer_instance

instance (l : List Nat) (v : Int) : Decidable (matchLineVal l v) := by
  unfold matchLineVal; infer_instance

theorem pyReadline_append (l : List Nat) (h : 10 ∉ l) (s : List Nat) :
    pyReadline (l ++ 10 :: s) = (l ++ [10], s) := by
  induction l with
  | nil => simp [pyReadline]
  | cons b bs ih =>
    have hb : b ≠ 10 := fun hb => h (by simp [hb])
    have hbs : 10 ∉ bs := fun hm => h (List.mem_cons_of_mem _ hm)
    simp [pyReadline, hb, ih hbs]

theorem pyReadline_noNewline (l : List Nat) (h : 10 ∉ l) :
    pyReadline l = (l, []) := by
  induction l with
  | nil => rfl
  | cons b bs ih =>
    have hb : b ≠ 10 := fun hb => h (by simp [hb])
    have hbs : 10 ∉ bs := fun hm => h (List.mem_cons_of_mem _ hm)
    simp [pyReadline, hb, ih hbs]

theorem append_ten_eq_crlf {l : List Nat} : l ++ [10] = [13, 10] ↔ l = [13] := by
  constructor
  · intro h
    have : l ++ [10] = [13] ++ [10] := by simpa using h
    exact List.append_cancel_right this
  · intro h; simp [h]

theorem headerLineUpdate_not_match {line : List Nat} (h : clMatch line = false)
    (cl : Option Int) : headerLineUpdate line cl = Except.ok cl := by
  unfold clMatch at h
  simp [headerLineUpdate, h]

theorem headerLineUpdate_match {line : List Nat} {v : Int} (hm : clMatch line = true)
    (hv : clValue line = some v) (cl : Option Int) :
    headerLineUpdate line cl = Except.ok (some v) := by
  unfold clMatch at hm
  unfold clValue at hv
  simp [headerLineUpdate, hm, hv]

theorem headerLineUpdate_no_raise {line : List Nat} (h : lineRaises line = false)
    (cl : Option Int) : ∃ cl', headerLineUpdate line cl = Except.ok cl' := by
  unfold lineRaises clMatch clValue at h
  by_cases hm : clPat.isPrefixOf (lineText line) = true
  · rw [hm] at h
    simp only [Bool.true_and] at h
    cases hv : pyInt (part1 (lineText line)) with
    | none => rw [hv] at h; simp at h
    | some v =>
      refine ⟨some v, ?_⟩
      simp [headerLineUpdate, hm, hv]
  · refine ⟨cl, ?_⟩
    simp only [Bool.not_eq_true] at hm
    simp [headerLineUpdate, hm]

theorem ne_cr_of_clMatch {l : List Nat} (h : clMatch (l ++ [10]) = true) : l ≠ [13] := by
  intro he
  rw [he] at h
  exact absurd h (by decide)

theorem parseLoop_step (fuel : Nat) (l s : List Nat) (cl cl' : Option Int)
    (h10 : 10 ∉ l) (h13 : l ≠ [13])
    (hupd : headerLineUpdate (l ++ [10]) cl = Except.ok cl') :
    parseLoop (fuel + 1) (l ++ 10 :: s) cl = parseLoop fuel s cl' := by
  have hr := pyReadline_append l h10 s
  have hne : l ++ [10] ≠ [13, 10] := fun hcontra => h13 (append_ten_eq_crlf.1 hcontra)
  simp [parseLoop, hr, hne, hupd]

theorem parseLoop_crlf_none (fuel : Nat) (rest : List Nat) :
    parseLoop (fuel + 1) (13 :: 10 :: rest) none =
      some (Except.error (PyErr.runtimeError ("Did not receive Content-Length header"))) := by
  simp [parseLoop, pyReadline]

theorem parseLoop_crlf_some (fuel : Nat) (rest : List Nat) (v : Int) :
    parseLoop (fuel + 1) (13 :: 10 :: rest) (some v) = some (Except.ok (rest, v)) := by
  simp [parseLoop, pyReadline]

theorem parseLoop_skip_many (ls : List (List Nat)) (h : ∀ l ∈ ls, goodSkipLine l) :
    ∀ (fuel : Nat) (s : List Nat) (cl : Option Int),
      parseLoop (ls.length + fuel) (joinLines ls ++ s) cl = parseLoop fuel s cl := by
  induction ls with
  | nil => intro fuel s cl; simp [joinLines]
  | cons l ls ih =>
    intro fuel s cl
    obtain ⟨h10, h13, hmatch⟩ := h l (by simp)
    have hupd := headerLineUpdate_not_match hmatch cl
    have hlen : (l :: ls).length + fuel = (ls.length + fuel) + 1 := by
      simp [List.length_cons]; omega
    have hstream : joinLines (l :: ls) ++ s = l ++ 10 :: (joinLines ls ++ s) := by
      simp [joinLines]
    rw [hlen, hstream, parseLoop_step _ l _ cl cl h10 h13 hupd]
    exact ih (fun x hx => h x (by simp [hx])) fuel s cl

theorem parseLoop_none_nil : ∀ (fuel : Nat) (cl : Option Int), parseLoop fuel [] cl = none := by
  intro fuel
  induction fuel with
  | zero => intro cl; rfl
  | succ f ih =>
    intro cl
    have hupd : headerLineUpdate [] cl = Except.ok cl := headerLineUpdate_not_match (by decide) cl
    simp [parseLoop, pyReadline, hupd, ih]

/-- C6: a response whose header block reaches the empty-line terminator
without any Content-Length header makes `prepare_socket` raise the
`RuntimeError('Did not receive Content-Length header')`: with fuel for the
`ls.length` header lines (none of which matches the pattern) plus the
terminator, the loop terminates (it does not hang) with that error, so it
never returns a handle or a zero-length payload in this case. -/
theorem prepare_socket_missing_content_length
    (ls : List (List Nat)) (rest : List Nat) (k : Nat)
    (h : ∀ l ∈ ls, goodSkipLine l) :
    prepare_socket (ls.length + (k + 1)) (joinLines ls ++ 13 :: 10 :: rest) =
      some (Except.error (PyErr.runtimeError ("Did not receive Content-Length header"))) := by
  unfold prepare_socket
  rw [parseLoop_skip_many ls h (k + 1)]
  exact parseLoop_crlf_none k rest

/-- Witness for C6: a concrete response holding only a status line and the
blank terminator. -/
theorem prepare_socket_missing_content_length_witness :
    (∀ l ∈ [strBytes ("HTTP/1.1 200 OK\r")], goodSkipLine l) ∧
      prepare_socket ([strBytes ("HTTP/1.1 200 OK\r")].length + (0 + 1))
          (joinLines [strBytes ("HTTP/1.1 200 OK\r")] ++ 13 :: 10 :: []) =
        some (Except.error (PyErr.runtimeError ("Did not receive Content-Length header"))) :=
  ⟨by decide,
    prepare_socket_missing_content_length [strBytes ("HTTP/1.1 200 OK\r")] [] 0 (by decide)⟩

/-- C9: the header loop of `prepare_socket` never terminates on a stream
that reaches end-of-stream before an exact `\r\n` line: if every complete
line is neither the terminator `\r\n` nor a line that raises while parsed,
and the stream ends in a possibly empty chunk `t` with no newline, then the
loop returns `none` for every amount of fuel — once the stream is exhausted,
`readline` returns the empty byte string forever and no iteration can exit.
Termination therefore requires the stream to yield an exact `\r\n` line or a
line whose Content-Length value fails to parse. -/
theorem parseLoop_diverges_without_terminator (t : List Nat)
    (ht10 : 10 ∉ t) (htr : lineRaises t = false) :
    ∀ (ls : List (List Nat)), (∀ l ∈ ls, quietLine l) →
      ∀ (fuel : Nat) (cl : Option Int), parseLoop fuel (joinLines ls ++ t) cl = none := by
  intro ls
  induction ls with
  | nil =>
    intro _ fuel cl
    simp only [joinLines, List.nil_append]
    cases t with
    | nil => exact parseLoop_none_nil fuel cl
    | cons b bs =>
      cases fuel with
      | zero => rfl
      | succ f =>
        have hr := pyReadline_noNewline (b :: bs) ht10
        have hne : (b :: bs) ≠ ([13, 10] : List Nat) := by
          intro hcontra
          apply ht10
          rw [hcontra]
          simp
        obtain ⟨cl', hupd⟩ := headerLineUpdate_no_raise htr cl
        simp [parseLoop, hr, hne, hupd, parseLoop_none_nil f cl']
  | cons l ls ih =>
    intro hls fuel cl
    cases fuel with
    | zero => rfl
    | succ f =>
      obtain ⟨h10, h13, hraise⟩ := hls l (by simp)
      obtain ⟨cl', hupd⟩ := headerLineUpdate_no_raise hraise cl
      have hstream : joinLines (l :: ls) ++ t = l ++ 10 :: (joinLines ls ++ t) := by
        simp [joinLines]
      rw [hstream, parseLoop_step f l _ cl cl' h10 h13 hupd]
      exact ih (fun x hx => hls x (by simp [hx])) f cl'

/-- Witness for C9: a stream holding one ordinary header line and then a
truncated chunk, with fuel instantiated at 5. -/
theorem parseLoop_diverges_without_terminator_witness :
    10 ∉ strBytes ("Conten") ∧ lineRaises (strBytes ("Conten")) = false ∧
      (∀ l ∈ [strBytes ("HTTP/1.1 200 OK\r")], quietLine l) ∧
      parseLoop 5 (joinLines [strBytes ("HTTP/1.1 200 OK\r")] ++ strBytes ("Conten")) none = none :=
  ⟨by decide, by decide, by decide,
    parseLoop_diverges_without_terminator (strBytes ("Conten")) (by decide) (by decide)
      [strBytes ("HTTP/1.1 200 OK\r")] (by decide) 5 none⟩

/-- C10: first, a non-terminator line is recognised only when its processed
text starts with the exact pattern `content-length: ` — otherwise the stored
value is unchanged; second, in particular the response carrying only
`Content-Length:1000128` (no space after the colon) ends in the
missing-Content-Length `RuntimeError` even though the server sent the
header; third, when several recognised Content-Length lines appear before
the blank line, the value returned is that of the last one. -/
theorem prepare_socket_header_recognition :
    (∀ (line : List Nat) (cl : Option Int), clMatch line = false →
      headerLineUpdate line cl = Except.ok cl) ∧
    prepare_socket 2 (strBytes ("Content-Length:1000128\r\n\r\n")) =
      some (Except.error (PyErr.runtimeError ("Did not receive Content-Length header"))) ∧
    (∀ (la lb lc : List (List Nat)) (l1 l2 : List Nat) (v1 v2 : Int) (rest : List Nat) (k : Nat),
      (∀ l ∈ la, goodSkipLine l) → (∀ l ∈ lb, goodSkipLine l) → (∀ l ∈ lc, goodSkipLine l) →
      matchLineVal l1 v1 → matchLineVal l2 v2 →
      prepare_socket (la.length + (1 + (lb.length + (1 + (lc.length + (k + 1))))))
          (joinLines la ++ (l1 ++ 10 :: (joinLines lb ++ (l2 ++ 10 :: (joinLines lc ++ 13 :: 10 :: rest))))) =
        some (Except.ok (rest, v2))) := by
  refine ⟨fun line cl h => headerLineUpdate_not_match h cl, by decide, ?_⟩
  intro la lb lc l1 l2 v1 v2 rest k ha hb hc hm1 hm2
  obtain ⟨h110, h1m, h1v⟩ := hm1
  obtain ⟨h210, h2m, h2v⟩ := hm2
  unfold prepare_socket
  rw [parseLoop_skip_many la ha]
  rw [Nat.add_comm 1 (lb.length + (1 + (lc.length + (k + 1))))]
  rw [parseLoop_step _ l1 _ none (some v1) h110 (ne_cr_of_clMatch h1m)
    (headerLineUpdate_match h1m h1v none)]
  rw [parseLoop_skip_many lb hb]
  rw [Nat.add_comm 1 (lc.length + (k + 1))]
  rw [parseLoop_step _ l2 _ (some v1) (some v2) h210 (ne_cr_of_clMatch h2m)
    (headerLineUpdate_match h2m h2v (some v1))]
  rw [parseLoop_skip_many lc hc]
  exact parseLoop_crlf_some k rest v2

/-- Witness for C10: a recognised `Content-Length: 7` line followed by an
ordinary header line and a second recognised `content-length: 9` line; the
returned value is 9. -/
theorem prepare_socket_header_recognition_witness :
    matchLineVal (strBytes ("Content-Length: 7\r")) 7 ∧
      matchLineVal (strBytes ("content-length: 9\r")) 9 ∧
      prepare_socket (0 + (1 + (1 + (1 + (0 + (0 + 1))))))
          (joinLines [] ++ (strBytes ("Content-Length: 7\r") ++ 10 ::
            (joinLines [strBytes ("Server: test\r")] ++ (strBytes ("content-length: 9\r") ++ 10 ::
              (joinLines [] ++ 13 :: 10 :: []))))) =
        some (Except.ok ([], 9)) :=
  ⟨by decide, by decide,
    prepare_socket_header_recognition.2.2 [] [strBytes ("Server: test\r")] []
      (strBytes ("Content-Length: 7\r")) (strBytes ("content-length: 9\r")) 7 9 [] 0
      (by decide) (by decide) (by decide) (by decide) (by decide)⟩

theorem load_socket_readinto_ok_of_le (fuel : Nat) (resp body : List Nat) (L : Nat)
    (h : prepare_socket fuel resp = some (Except.ok (body, (L : Int))))
    (hL : L ≤ body.length) :
    load_socket_readinto fuel resp = some (Except.ok (body.take L)) := by
  have hneg : ¬((L : Int) < 0) := by omega
  have htn : ((L : Int)).toNat = L := by omega
  have hmin : min L body.length = L := Nat.min_eq_left hL
  simp only [load_socket_readinto, h]
  rw [if_neg hneg, htn, hmin]
  simp

theorem load_socket_readinto_assert_of_lt (fuel : Nat) (resp body : List Nat) (L : Nat)
    (h : prepare_socket fuel resp = some (Except.ok (body, (L : Int))))
    (hlt : body.length < L) :
    load_socket_readinto fuel resp = some (Except.error PyErr.assertionError) := by
  have hneg : ¬((L : Int) < 0) := by omega
  have htn : ((L : Int)).toNat = L := by omega
  have hmin : min L body.length = body.length := Nat.min_eq_right (Nat.le_of_lt hlt)
  have hne : body.length ≠ L := Nat.ne_of_lt hlt
  simp only [load_socket_readinto, h]
  rw [if_neg hneg, htn, hmin, if_neg hne]

theorem load_socket_read_eq_take (fuel : Nat) (resp body : List Nat) (L : Nat)
    (h : prepare_socket fuel resp = some (Except.ok (body, (L : Int)))) :
    load_socket_read fuel resp = some (Except.ok (body.take L)) := by
  have hneg : ¬((L : Int) < 0) := by omega
  have htn : ((L : Int)).toNat = L := by omega
  simp only [load_socket_read, h]
  rw [if_neg hneg, htn]

/-- C4: on a response whose header block declares Content-Length `L`,
`load_socket_readinto` allocates a buffer of exactly `L` bytes, fills it in
place, and returns a view of exactly `L` bytes over it whenever the stream
carries at least `L` body bytes; when the stream carries fewer, `readinto`
fills fewer than `L` bytes and the `assert n == content_length` fails — an
`AssertionError`, never a silently truncated payload. -/
theorem load_socket_readinto_exact_length (fuel : Nat) (resp body : List Nat) (L : Nat)
    (h : prepare_socket fuel resp = some (Except.ok (body, (L : Int)))) :
    (L ≤ body.length →
      load_socket_readinto fuel resp = some (Except.ok (body.take L)) ∧
        (body.take L).length = L) ∧
    (body.length < L →
      load_socket_readinto fuel resp = some (Except.error PyErr.assertionError)) := by
  constructor
  · intro hL
    exact ⟨load_socket_readinto_ok_of_le fuel resp body L h hL,
      by simp [List.length_take, Nat.min_eq_left hL]⟩
  · intro hlt
    exact load_socket_readinto_assert_of_lt fuel resp body L h hlt

/-- Witness for C4: a concrete 200 response declaring Content-Length 5 with
the five-byte body `hello`. -/
theorem load_socket_readinto_exact_length_witness :
    5 ≤ (strBytes ("hello")).length ∧
      (load_socket_readinto 3 (strBytes ("HTTP/1.1 200 OK\r\nContent-Length: 5\r\n\r\nhello")) =
        some (Except.ok ((strBytes ("hello")).take 5)) ∧
        ((strBytes ("hello")).take 5).length = 5) :=
  ⟨by decide,
    (load_socket_readinto_exact_length 3
        (strBytes ("HTTP/1.1 200 OK\r\nContent-Length: 5\r\n\r\nhello"))
        (strBytes ("hello")) 5 (by decide)).1 (by decide)⟩

/-- C5: on a fixture response — header block declaring Content-Length `L`
followed by exactly `L` body bytes — the `socket-read` and
`socket-readinto` strategies return byte-identical payloads, namely the
whole body. -/
theorem socket_read_readinto_agree (fuel : Nat) (resp body : List Nat) (L : Nat)
    (h : prepare_socket fuel resp = some (Except.ok (body, (L : Int))))
    (hlen : body.length = L) :
    load_socket_read fuel resp = some (Except.ok body) ∧
      load_socket_readinto fuel resp = some (Except.ok body) := by
  have htake : body.take L = body := by
    rw [← hlen]
    exact List.take_length body
  constructor
  · rw [load_socket_read_eq_take fuel resp body L h, htake]
  · rw [load_socket_readinto_ok_of_le fuel resp body L h (Nat.le_of_eq hlen.symm), htake]

/-- Witness for C5: both strategies return `hello` on the concrete fixture
response. -/
theorem socket_read_readinto_agree_witness :
    load_socket_read 3 (strBytes ("HTTP/1.1 200 OK\r\nContent-Length: 5\r\n\r\nhello")) =
        some (Except.ok (strBytes ("hello"))) ∧
      load_socket_readinto 3 (strBytes ("HTTP/1.1 200 OK\r\nContent-Length: 5\r\n\r\nhello")) =
        some (Except.ok (strBytes ("hello"))) :=
  socket_read_readinto_agree 3 (strBytes ("HTTP/1.1 200 OK\r\nContent-Length: 5\r\n\r\nhello"))
    (strBytes ("hello")) 5 (by decide) (by decide)

theorem parseLoopOps_result : ∀ (fuel : Nat) (s : List Nat) (cl : Option Int),
    (parseLoopOps fuel s cl).2 = parseLoop fuel s cl := by
  intro fuel
  induction fuel with
  | zero => intro s cl; rfl
  | succ f ih =>
    intro s cl
    by_cases hc : (pyReadline s).1 = [13, 10]
    · simp [parseLoopOps, parseLoop, hc]
    · cases hu : headerLineUpdate (pyReadline s).1 cl with
      | ok cl' => simp [parseLoopOps, parseLoop, hc, hu, ih]
      | error e => simp [parseLoopOps, parseLoop, hc, hu]

theorem close_not_mem_parseLoopOps : ∀ (fuel : Nat) (s : List Nat) (cl : Option Int),
    SockOp.close ∉ (parseLoopOps fuel s cl).1 := by
  intro fuel
  induction fuel with
  | zero => intro s cl; simp [parseLoopOps]
  | succ f ih =>
    intro s cl
    by_cases hc : (pyReadline s).1 = [13, 10]
    · simp [parseLoopOps, hc]
    · cases hu : headerLineUpdate (pyReadline s).1 cl with
      | ok cl' =>
        simp only [parseLoopOps, if_neg hc, hu, List.mem_cons]
        rintro (hcontra | hmem)
        · exact absurd hcontra (by decide)
        · exact ih _ _ hmem
      | error e => simp [parseLoopOps, hc, hu]

theorem close_not_mem_prepare_socket_ops (fuel : Nat) (resp : List Nat) :
    SockOp.close ∉ (prepare_socket_ops fuel resp).1 := by
  simp only [prepare_socket_ops, List.mem_append, List.mem_cons]
  rintro (hcontra | hmem)
  · rcases hcontra with h | h | h | h | h | h
    · exact absurd h (by decide)
    · exact absurd h (by decide)
    · exact absurd h (by decide)
    · exact absurd h (by decide)
    · exact absurd h (by decide)
    · simp at h
  · exact close_not_mem_parseLoopOps fuel resp none hmem

/-- C8 (amended): the raw client releases its connection handle on no exit
path at all — neither `prepare_socket` (on success or on header-parse
failure) nor the two body-retrieval strategies ever perform a `close`; the
socket is left to be reclaimed by interpreter finalization. -/
theorem raw_client_never_closes (fuel : Nat) (resp : List Nat) :
    SockOp.close ∉ (prepare_socket_ops fuel resp).1 ∧
      SockOp.close ∉ (load_socket_read_ops fuel resp).1 ∧
      SockOp.close ∉ (load_socket_readinto_ops fuel resp).1 := by
  have hpre := close_not_mem_prepare_socket_ops fuel resp
  refine ⟨hpre, ?_, ?_⟩
  · unfold load_socket_read_ops
    cases h2 : (prepare_socket_ops fuel resp).2 with
    | none => simp only [h2]; exact hpre
    | some r =>
      cases r with
      | error e => simp only [h2]; exact hpre
      | ok p =>
        obtain ⟨fh, cl⟩ := p
        simp only [h2, List.mem_append, List.mem_cons]
        rintro (hmem | hcontra | hcontra)
        · exact hpre hmem
        · exact absurd hcontra (by decide)
        · simp at hcontra
  · unfold load_socket_readinto_ops
    cases h2 : (prepare_socket_ops fuel resp).2 with
    | none => simp only [h2]; exact hpre
    | some r =>
      cases r with
      | error e => simp only [h2]; exact hpre
      | ok p =>
        obtain ⟨fh, cl⟩ := p
        by_cases hneg : cl < 0
        · simp only [h2, if_pos hneg]
          exact hpre
        · simp only [h2, if_neg hneg, List.mem_append, List.mem_cons]
          rintro (hmem | hcontra | hcontra)
          · exact hpre hmem
          · exact absurd hcontra (by decide)
          · simp at hcontra

/-- Counterexample to C8 as stated: on a response with no Content-Length
header, `load_socket_read` propagates the header-parse `RuntimeError`, and
`close` is nowhere in the trace of socket operations performed — the handle
is not closed before the error propagates. -/
theorem raw_client_no_close_on_parse_failure :
    (load_socket_read_ops 2 (strBytes ("HTTP/1.1 200 OK\r\n\r\n"))).2 =
        some (Except.error (PyErr.runtimeError ("Did not receive Content-Length header"))) ∧
      SockOp.close ∉ (load_socket_read_ops 2 (strBytes ("HTTP/1.1 200 OK\r\n\r\n"))).1 := by
  constructor
  · decide
  · decide

theorem measureGo_closed (env : MeasureEnv) :
    ∀ (is : List Nat) (rates : List Rat) (size calls : Nat),
      (∀ i ∈ is, env.clock (2 * i + 1) - env.clock (2 * i) ≠ 0) →
      measureGo env is rates size calls =
        (calls + is.length,
          Except.ok
            (rates ++ is.map (fun i =>
              ((env.payload (i + 1)).length : Rat) / (env.clock (2 * i + 1) - env.clock (2 * i))),
             if 0 ∈ is then (env.payload 1).length else size)) := by
  intro is
  induction is with
  | nil =>
    intro rates size calls _
    simp [measureGo]
  | cons i is ih =>
    intro rates size calls h
    have hi := h i (by simp)
    simp only [measureGo, if_neg hi]
    rw [ih _ _ _ (fun j hj => h j (by simp [hj]))]
    simp only [Prod.mk.injEq, Except.ok.injEq, List.map_cons, List.length_cons, List.mem_cons]
    refine ⟨by omega, ?_, ?_⟩
    · simp
    · by_cases h0 : i = 0 <;> by_cases hmem : (0 : Nat) ∈ is <;>
        simp [h0, hmem, eq_comm]

theorem env0_clock_sub (i : Nat) : env0.clock (2 * i + 1) - env0.clock (2 * i) = 1 := by
  show ((2 * i + 1 : Nat) : Rat) - ((2 * i : Nat) : Rat) = 1
  push_cast
  ring

/-- C1: in a run with `passes = p` (as the claim states it, `p ≥ 2`) in
which every timed pass has a nonzero elapsed time, `measure_method` invokes
the selected method exactly `p + 1` times: the single untimed warmup
invocation (call index 0, result discarded) followed by the `p` timed
invocations of the loop. -/
theorem measure_method_invocation_count (env : MeasureEnv) (p : Nat) (_hp : 2 ≤ p)
    (hclk : ∀ i < p, env.clock (2 * i + 1) - env.clock (2 * i) ≠ 0) :
    (measure_method env (p : Int)).1 = p + 1 := by
  have htn : ((p : Int)).toNat = p := by omega
  have hgo := measureGo_closed env (List.range p) [] 0 1
    (fun i hi => hclk i (List.mem_range.mp hi))
  simp only [measure_method, htn, hgo]
  simp [List.length_range]
  omega

/-- Witness for C1: with `passes = 5` the method is invoked 6 times. -/
theorem measure_method_invocation_count_witness :
    (measure_method env0 ((5 : Nat) : Int)).1 = 5 + 1 :=
  measure_method_invocation_count env0 5 (by omega)
    (fun i _ => by rw [env0_clock_sub]; exact one_ne_zero)

/-- C2: in a run with `passes = p ≥ 2` in which every timed pass has a
nonzero elapsed time, `measure_method` returns the arithmetic mean of the
per-pass throughputs (each being payload byte count over elapsed monotonic
time), the sample variance of those throughputs, and the first-pass size;
the standard error it reports is the sample standard deviation (the real
square root of that sample variance, Bessel divisor `p - 1`) divided by
`sqrt (p - 1)`. -/
theorem measure_method_statistics (env : MeasureEnv) (p : Nat) (hp : 2 ≤ p)
    (hclk : ∀ i < p, env.clock (2 * i + 1) - env.clock (2 * i) ≠ 0) :
    (measure_method env (p : Int)).2 =
        Except.ok (specMean env p, specVariance env p, (env.payload 1).length) ∧
      measure_method_std env (p : Int) =
        Real.sqrt ((specVariance env p : Real)) / Real.sqrt (((p : Nat) : Real) - 1) := by
  have htn : ((p : Int)).toNat = p := by omega
  have hgo := measureGo_closed env (List.range p) [] 0 1
    (fun i hi => hclk i (List.mem_range.mp hi))
  have h0mem : (0 : Nat) ∈ List.range p := List.mem_range.mpr (by omega)
  have hlen : (specRates env p).length = p := by simp [specRates]
  have hmean : pyMean (specRates env p) = Except.ok (specMean env p) := by
    unfold pyMean specMean
    rw [hlen, if_neg (by omega)]
  have hvar : pyVariance (specRates env p) = Except.ok (specVariance env p) := by
    unfold pyVariance specVariance specMean
    rw [hlen, if_neg (by omega)]
  have hres : (measure_method env (p : Int)).2 =
      Except.ok (specMean env p, specVariance env p, (env.payload 1).length) := by
    simp only [measure_method, htn, hgo, List.nil_append, if_pos h0mem]
    have hfold : (List.range p).map (fun i =>
        ((env.payload (i + 1)).length : Rat) / (env.clock (2 * i + 1) - env.clock (2 * i))) =
        specRates env p := rfl
    rw [hfold, hmean, hvar]
  refine ⟨hres, ?_⟩
  unfold measure_method_std
  rw [hres]
  unfold measure_stderr
  norm_num

/-- Witness for C2: in the concrete environment with `passes = 2` both
passes take one second and carry three bytes, and the reported statistics
are as the theorem states. -/
theorem measure_method_statistics_witness :
    (measure_method env0 ((2 : Nat) : Int)).2 =
        Except.ok (specMean env0 2, specVariance env0 2, (env0.payload 1).length) ∧
      measure_method_std env0 ((2 : Nat) : Int) =
        Real.sqrt ((specVariance env0 2 : Real)) / Real.sqrt (((2 : Nat) : Real) - 1) :=
  measure_method_statistics env0 2 (by omega)
    (fun i _ => by rw [env0_clock_sub]; exact one_ne_zero)

/-- C3 (amended): with `passes < 2` the run fails with a `StatisticsError`
(`statistics.mean` of an empty list when `passes ≤ 0`, `statistics.stdev`
of a single point when `passes = 1`) which propagates out of
`measure_method` — but only after the warmup invocation and all
`max passes 0` timed invocations have completed, so the failure happens
after measurement, not before it. -/
theorem measure_method_few_passes (env : MeasureEnv) (p : Int) (hp : p < 2)
    (hclk : ∀ i < p.toNat, env.clock (2 * i + 1) - env.clock (2 * i) ≠ 0) :
    (measure_method env p).2 = Except.error PyErr.statisticsError ∧
      (measure_method env p).1 = p.toNat + 1 := by
  have hgo := measureGo_closed env (List.range p.toNat) [] 0 1
    (fun i hi => hclk i (List.mem_range.mp hi))
  have hle : p.toNat ≤ 1 := by omega
  rcases Nat.le_one_iff_eq_zero_or_eq_one.mp hle with h0 | h1
  · rw [h0] at hgo
    simp only [measure_method, h0]
    rw [hgo]
    simp [pyMean]
  · rw [h1] at hgo
    simp only [measure_method, h1]
    rw [hgo]
    simp [pyMean, pyVariance]

/-- Witness for amended C3: `passes = 1` in the concrete environment. -/
theorem measure_method_few_passes_witness :
    (1 : Int) < 2 ∧
      ((measure_method env0 1).2 = Except.error PyErr.statisticsError ∧
        (measure_method env0 1).1 = (1 : Int).toNat + 1) :=
  ⟨by omega, measure_method_few_passes env0 1 (by omega)
    (fun i _ => by rw [env0_clock_sub]; exact one_ne_zero)⟩

/-- Counterexample to C3 as stated: with `passes = 1` the failure does not
happen before any measurement — the method has already been invoked twice
(the warmup and one timed pass) when the `StatisticsError` is raised. -/
theorem measure_method_one_pass_runs_before_failure :
    (measure_method env0 1).1 = 2 ∧
      (measure_method env0 1).2 = Except.error PyErr.statisticsError := by
  have hgo := measureGo_closed env0 (List.range 1) [] 0 1
    (fun i _ => by rw [env0_clock_sub]; exact one_ne_zero)
  have htn : (1 : Int).toNat = 1 := rfl
  constructor
  · simp [measure_method, htn, hgo]
  · simp only [measure_method, htn, hgo]
    simp [pyMean, pyVariance]

theorem checksumLookup_lower (n : Nat) (c : List Char) (h : checksumLookup n = some c) :
    pyStrLower c = c := by
  unfold checksumLookup at h
  cases hf : CHECKSUMS.find? (fun e => e.1 == n) with
  | none => rw [hf] at h; simp at h
  | some e =>
    rw [hf] at h
    simp at h
    have hmem := List.mem_of_find?_eq_some hf
    subst h
    simp only [CHECKSUMS, List.mem_cons, List.not_mem_nil, or_false] at hmem
    rcases hmem with he | he | he <;> rw [he] <;> decide

/-- C7: `validate` only emits diagnostics and never aborts.  When the
payload length has no entry in the checksum table, the single diagnostic is
`No checksum found` and the run proceeds.  When an entry `c` exists, the
diagnostic is the mismatch message exactly when the computed digest differs
from `c`; and since `hexdigest()` returns lowercase hex (the hypothesis on
the abstract digest) and every stored digest is lowercase, this comparison
is exactly the case-insensitive comparison of the two hex digests. -/
theorem validate_diagnostics (digestHex : List Nat → List Char) (data : List Nat) :
    (checksumLookup data.length = none → validate digestHex data = [Diag.noChecksumFound]) ∧
    (∀ c, checksumLookup data.length = some c →
      (validate digestHex data =
          (if digestHex data ≠ c then [Diag.checksumMismatch (digestHex data) c] else []) ∧
        (pyStrLower (digestHex data) = digestHex data →
          (validate digestHex data = [] ↔ pyStrLower (digestHex data) = pyStrLower c)))) := by
  constructor
  · intro h
    simp [validate, h]
  · intro c hc
    have hlc := checksumLookup_lower _ _ hc
    constructor
    · simp [validate, hc]
    · intro hld
      constructor
      · intro hv
        by_cases he : digestHex data = c
        · rw [he]
        · simp [validate, hc, he] at hv
      · intro hl
        have he : digestHex data = c := by rw [← hld, hl, hlc]
        simp [validate, hc, he]

/-- Witness for C7: the empty payload has no checksum entry and produces
exactly the `No checksum found` diagnostic. -/
theorem validate_diagnostics_witness :
    checksumLookup (List.length ([] : List Nat)) = none ∧
      validate (fun _ => []) [] = [Diag.noChecksumFound] :=
  ⟨by decide, (validate_diagnostics (fun _ => []) []).1 (by decide)⟩

end HttpBench
